import Mathlib

/-!
Shallow embedding of `tools/render-test/cuda/cuda-compute-util.cpp`
(namespace `renderer_test`): the CUDA compute test-harness pipeline.

Driver calls (cuInit, cudaMalloc, cuLaunchKernel, ...) are external; they
are modelled by an environment of success flags (per-call-site booleans,
or `Nat → Bool` indexed by call order for calls in loops).  Device
attribute queries are modelled as always succeeding with the attribute
values carried by the device description; the failure branches they guard
are not needed by any claim.  Device pointers are modelled as positive
naturals handed out in allocation order (0 plays the role of `nullptr`).
`SLANG_ASSERT` is a debug-only signal that does not alter control flow in
release builds; assertion violations are therefore recorded in the trace
rather than turned into failure returns, exactly as the source behaves.
-/

namespace RenderTest

/-- Result code of a pipeline step: `SLANG_OK` or `SLANG_FAIL`. -/
inductive SRes where
  | ok
  | fail
  deriving DecidableEq, Repr

/-- Base resource shape, i.e. `shape & SLANG_RESOURCE_BASE_SHAPE_MASK`
(the source masks the flag bits off before switching). -/
inductive BaseShape where
  | texture1D
  | texture2D
  | texture3D
  | textureCube
  | textureBuffer
  | byteAddressBuffer
  | structuredBuffer
  | unknownShape
  deriving DecidableEq, Repr

/-- Reflection type kind (`slang::TypeReflection::Kind`), restricted to the
constructors the source dispatches on; every other kind falls into
`otherKind` and hits the `default` branches. -/
inductive TypeKind where
  | constantBuffer
  | parameterBlock
  | resource (shape : BaseShape)
  | array (elementCount : Nat)
  | vector (elementCount : Nat)
  | otherKind
  deriving DecidableEq, Repr

/-- One `BindSet::Value`: `m_type` (null modelled as `none`),
`m_sizeInBytes`, whether `m_data` is non-null, and `m_userIndex`. -/
structure Value where
  type : Option TypeKind
  sizeInBytes : Nat
  hasData : Bool
  userIndex : Int
  deriving DecidableEq, Repr

/-- One test-layout entry: its `isOutput` flag together with the value the
external `getValueBuffers` associated to it (`outContext.m_buffers[i]`,
`none` when that buffer pointer is null/absent). -/
structure Entry where
  isOutput : Bool
  valueIdx : Option Nat
  deriving DecidableEq, Repr

/-- Attributes of one enumerated CUDA device, as read by
`cudaDeviceGetAttribute` in `_findMaxFlopsDeviceId`.  `prohibited` is
`computeMode == cudaComputeModeProhibited`. -/
structure CUDADevice where
  prohibited : Bool
  major : Int
  minor : Int
  multiProcessorCount : Nat
  clockRate : Nat
  deriving DecidableEq, Repr

/-- The fixed `SMInfo` table of `_calcSMCountPerMultiProcessor`:
`(0xMm, coreCount)` pairs. -/
def smInfos : List (Int × Nat) :=
  [(0x30, 192), (0x32, 192), (0x35, 192), (0x37, 192),
   (0x50, 128), (0x52, 128), (0x53, 128),
   (0x60, 64), (0x61, 128), (0x62, 128),
   (0x70, 64), (0x72, 64), (0x75, 64)]

/-- Embedding of `_calcSMCountPerMultiProcessor`: looks up
`sm = (major << 4) + minor` in the table; on a miss it returns the last
entry's core count (the source additionally fires a debug-only
`SLANG_ASSERT(sm > last.coreCount)`, which does not affect the returned
value). -/
def _calcSMCountPerMultiProcessor (major minor : Int) : Nat :=
  let sm : Int := major * 16 + minor
  match smInfos.find? (fun p => p.1 == sm) with
  | some p => p.2
  | none => (smInfos.getLastD (0, 0)).2

/-- Score of one non-prohibited device in `_findMaxFlopsDeviceId`:
`uint64_t(multiProcessorCount) * smPerMultiproc * clockRate`, where a
`(9999, 9999)` capability (device emulation) counts 1 core per SM. -/
def deviceScore (d : CUDADevice) : Nat :=
  let sm : Nat :=
    if d.major == 9999 && d.minor == 9999 then 1
    else _calcSMCountPerMultiProcessor d.major d.minor
  d.multiProcessorCount * sm * d.clockRate

/-- The scan loop of `_findMaxFlopsDeviceId`: arguments are the remaining
devices, the index of the next device, the running `maxComputePerf`
(starts at 0) and the running `maxPerfDevice` (`none` plays the role of
the initial `-1`). -/
def findLoop : List CUDADevice → Nat → Nat → Option Nat → Option Nat
  | [], _, _, best => best
  | d :: rest, i, maxPerf, best =>
    if d.prohibited then findLoop rest (i + 1) maxPerf best
    else if deviceScore d > maxPerf then findLoop rest (i + 1) (deviceScore d) (some i)
    else findLoop rest (i + 1) maxPerf best

/-- Embedding of `_findMaxFlopsDeviceId` over an already-enumerated device
list; `none` is the `SLANG_FAIL` return taken when `maxPerfDevice < 0`. -/
def _findMaxFlopsDeviceId (devices : List CUDADevice) : Option Nat :=
  findLoop devices 0 0 none

/-- Maximum of `deviceScore` over the non-prohibited devices (0 when there
is none).  Specification-side helper used to characterise `findLoop`. -/
def maxEligScore (ds : List CUDADevice) : Nat :=
  ds.foldr (fun d acc => if d.prohibited then acc else max (deviceScore d) acc) 0

/-- Index of the first non-prohibited device whose score is exactly `m`.
Specification-side helper used to characterise `findLoop`. -/
def firstIdxWithScore (m : Nat) : List CUDADevice → Option Nat
  | [] => none
  | d :: rest =>
    if d.prohibited = false ∧ deviceScore d = m then some 0
    else (firstIdxWithScore m rest).map (· + 1)

/-- Environment for `ScopeCUDAContext::init(unsigned int flags)`: success
of `cuInit`, of `cudaGetDeviceCount`, the enumerated devices, success of
`cudaSetDevice` and of `cuCtxCreate`. -/
structure DeviceEnv where
  cuInitOk : Bool
  getDeviceCountOk : Bool
  devices : List CUDADevice
  setDeviceOk : Bool
  ctxCreateOk : Bool

/-- Embedding of `ScopeCUDAContext::init(unsigned int flags)` (the
overload used by `execute` and `canCreateDevice`): `_initCuda`, then
`_findMaxFlopsDeviceId` (whose internal `cudaGetDeviceCount` failure is
folded in here), then `cudaSetDevice`, then `cuCtxCreate`.  The
destroy-then-create of a previously held context is unobservable on a
fresh `ScopeCUDAContext` and is not modelled. -/
def scopeContextInit (env : DeviceEnv) : SRes :=
  if env.cuInitOk = false then .fail
  else
    match (if env.getDeviceCountOk then _findMaxFlopsDeviceId env.devices else none) with
    | none => .fail
    | some _ =>
      if env.setDeviceOk = false then .fail
      else if env.ctxCreateOk = false then .fail
      else .ok

/-- Embedding of `CUDAComputeUtil::canCreateDevice`: probes
`ScopeCUDAContext::init(0)` and reports whether it succeeded.  It is a
total function: no exception or crash is possible in the model, matching
the `SLANG_SUCCEEDED(...)` probe in the source. -/
def canCreateDevice (env : DeviceEnv) : Bool :=
  match scopeContextInit env with
  | .ok => true
  | .fail => false

/-- The kind the allocation pass dispatches on: `m_type->getKind()`, with
a null `m_type` treated as `ConstantBuffer`. -/
def valueKind (v : Value) : TypeKind :=
  v.type.getD TypeKind.constantBuffer

/-- Size `cudaMalloc`-ed for a value by the resource-allocation pass, or
`none` when the pass allocates nothing for this kind/shape (textures, the
inner-switch fallthrough shapes, and the outer `default`). -/
def allocSize (v : Value) : Option Nat :=
  match valueKind v with
  | .constantBuffer => some v.sizeInBytes
  | .parameterBlock => some v.sizeInBytes
  | .resource .byteAddressBuffer => some v.sizeInBytes
  | .resource .structuredBuffer => some v.sizeInBytes
  | _ => none

/-- Debug asserts fired for a value in the allocation pass: the
`SLANG_TEXTURE_2D` branch asserts `value->m_userIndex >= 0` (its
`m_target` assignment is commented out in the source, so no allocation
happens there). -/
def texAssertCount (v : Value) : Nat :=
  match valueKind v with
  | .resource .texture2D => if v.userIndex < 0 then 1 else 0
  | _ => 0

/-- The resource-allocation loop of `_compute`.  `ok n` is the success of
the `n`-th `cudaMalloc` call.  Returns the step result, the number of
debug asserts fired, the sizes successfully allocated in order, and the
per-value `m_target` as `(device pointer, size)` (pointer of the `n`-th
successful allocation is `n + 1`; `none` is a null `m_target`).  On a
`cudaMalloc` failure the loop returns `SLANG_FAIL` at once and the
remaining values keep a null `m_target`. -/
def allocLoop (ok : Nat → Bool) : List Value → Nat → SRes × Nat × List Nat × List (Option (Nat × Nat))
  | [], _ => (.ok, 0, [], [])
  | v :: rest, n =>
    match allocSize v with
    | none =>
      let r := allocLoop ok rest n
      (r.1, texAssertCount v + r.2.1, r.2.2.1, none :: r.2.2.2)
    | some sz =>
      if ok n then
        let r := allocLoop ok rest (n + 1)
        (r.1, texAssertCount v + r.2.1, sz :: r.2.2.1, some (n + 1, sz) :: r.2.2.2)
      else (.fail, texAssertCount v, [], none :: rest.map (fun _ => none))

/-- Embedding of `CUDAResource::getCUDAData`: the device pointer behind a
(possibly null) value, 0 for `nullptr` (null value, or value whose
`m_target` is not a CUDA allocation). -/
def getCUDAData (targets : List (Option (Nat × Nat))) (idx : Option Nat) : Nat :=
  match idx with
  | none => 0
  | some i =>
    match targets[i]? with
    | some (some pr) => pr.1
    | _ => 0

/-- The host-to-device copy loop of `_compute`: for every value with host
data and a CUDA allocation, `cudaMemcpy` of exactly `m_sizeInBytes`
bytes.  Arguments: per-copy success, the values zipped with their
targets, the index of the next value, the index of the next copy.
Returns the step result and the performed copies as
`(value index, byte count)`. -/
def uploadLoop (ok : Nat → Bool) : List (Value × Option (Nat × Nat)) → Nat → Nat → SRes × List (Nat × Nat)
  | [], _, _ => (.ok, [])
  | (v, tg) :: rest, i, n =>
    if v.hasData && tg.isSome then
      if ok n then
        let r := uploadLoop ok rest (i + 1) (n + 1)
        (r.1, (i, v.sizeInBytes) :: r.2)
      else (.fail, [])
    else uploadLoop ok rest (i + 1) n

/-- Value associated to a test-layout entry (via `m_buffers`). -/
def valueAt (values : List Value) (idx : Option Nat) : Option Value :=
  idx.bind (fun i => values[i]?)

/-- Target of the value associated to a test-layout entry. -/
def targetAt (targets : List (Option (Nat × Nat))) (idx : Option Nat) : Option (Nat × Nat) :=
  match idx with
  | none => none
  | some i =>
    match targets[i]? with
    | some t => t
    | none => none

/-- The device-to-host copy-back loop of `_compute`: for every entry with
`isOutput` whose value exists, has host data and a CUDA allocation,
`cudaMemcpy` of exactly that value's `m_sizeInBytes` bytes.  Arguments:
per-copy success, values, targets, remaining entries, index of the next
entry, index of the next copy.  Returns the step result and the performed
copies as `(entry index, byte count)`. -/
def downloadLoop (ok : Nat → Bool) (values : List Value) (targets : List (Option (Nat × Nat))) :
    List Entry → Nat → Nat → SRes × List (Nat × Nat)
  | [], _, _ => (.ok, [])
  | e :: rest, i, n =>
    if e.isOutput then
      match valueAt values e.valueIdx with
      | some v =>
        if v.hasData && (targetAt targets e.valueIdx).isSome then
          if ok n then
            let r := downloadLoop ok values targets rest (i + 1) (n + 1)
            (r.1, (i, v.sizeInBytes) :: r.2)
          else (.fail, [])
        else downloadLoop ok values targets rest (i + 1) n
      | none => downloadLoop ok values targets rest (i + 1) n
    else downloadLoop ok values targets rest (i + 1) n

/-- One `cuLaunchKernel` call as issued by `_compute`: grid dimensions,
block dimensions, dynamic shared-memory size, stream (`none` is the 0 "no
stream" sentinel) and the device pointers passed through `args`. -/
structure LaunchConfig where
  gridX : Nat
  gridY : Nat
  gridZ : Nat
  blockX : Nat
  blockY : Nat
  blockZ : Nat
  sharedBytes : Nat
  stream : Option Nat
  args : List Nat
  deriving DecidableEq, Repr

/-- Observable trace of one `execute` run: debug asserts fired (entry
point count, texture-2D user index), allocation sizes, host-to-device
copies, kernel launches, synchronization calls, device-to-host copies,
and how many times `releaseValueTargets` ran. -/
structure Trace where
  entryAsserts : Nat
  texAsserts : Nat
  mallocs : List Nat
  uploads : List (Nat × Nat)
  launches : List LaunchConfig
  syncs : Nat
  downloads : List (Nat × Nat)
  releaseCount : Nat
  deriving DecidableEq, Repr

/-- Success flags for the driver calls made inside `_compute`. -/
structure ComputeEnv where
  kernelFound : Bool
  addBindSetValuesOk : Bool
  mallocOk : Nat → Bool
  h2dOk : Nat → Bool
  funcAttr1Ok : Bool
  funcAttr2Ok : Bool
  launchOk : Bool
  syncOk : Bool
  d2hOk : Nat → Bool

/-- Inputs of `_compute` that come from reflection and from the external
layout steps: the reported entry-point count, the entry point's
thread-group size, the bind-set values, the test-layout entries (with
their `m_buffers` association), and which values `bindRoot` reports as
root value and entry-point value (`none` for a null value). -/
structure ComputeInput where
  entryPointCount : Nat
  tgsX : Nat
  tgsY : Nat
  tgsZ : Nat
  values : List Value
  entries : List Entry
  rootValueIdx : Option Nat
  entryPointValueIdx : Option Nat

/-- The single `cuLaunchKernel` configuration `_compute` builds: one
block, the entry point's thread-group size as block dimensions, shared
memory 0, the null stream, and exactly the two pointers
`{ &entryPointCUDAData, &uniformCUDAData }` in that order. -/
def launchConfigOf (inp : ComputeInput) (targets : List (Option (Nat × Nat))) : LaunchConfig :=
  { gridX := 1, gridY := 1, gridZ := 1,
    blockX := inp.tgsX, blockY := inp.tgsY, blockZ := inp.tgsZ,
    sharedBytes := 0, stream := none,
    args := [getCUDAData targets inp.entryPointValueIdx,
             getCUDAData targets inp.rootValueIdx] }

/-- Embedding of `_compute`.  Stage order follows the source: entry-point
count assert, `cuModuleGetFunction`, `addBindSetValues`, the allocation
loop, the binding loop (pure stores into host memory, no failure exits,
not traced), the upload loop, the two `cuFuncGetAttribute` queries, the
launch (recorded even when `cuLaunchKernel` reports failure, since the
call was issued), the `cudaDeviceSynchronize` barrier (the stream is
always the 0 sentinel, so the stream branches are dead), the download
loop, and finally `releaseValueTargets` followed by `SLANG_OK`. -/
def computeRun (inp : ComputeInput) (env : ComputeEnv) : SRes × Trace :=
  let t0 : Trace :=
    { entryAsserts := if inp.entryPointCount = 1 then 0 else 1,
      texAsserts := 0, mallocs := [], uploads := [], launches := [],
      syncs := 0, downloads := [], releaseCount := 0 }
  if env.kernelFound = false then (.fail, t0)
  else if env.addBindSetValuesOk = false then (.fail, t0)
  else
    let A := allocLoop env.mallocOk inp.values 0
    let targets := A.2.2.2
    let t1 := { t0 with texAsserts := A.2.1, mallocs := A.2.2.1 }
    if A.1 = .fail then (.fail, t1)
    else
      let U := uploadLoop env.h2dOk (inp.values.zip targets) 0 0
      let t2 := { t1 with uploads := U.2 }
      if U.1 = .fail then (.fail, t2)
      else if env.funcAttr1Ok = false then (.fail, t2)
      else if env.funcAttr2Ok = false then (.fail, t2)
      else
        let t3 := { t2 with launches := [launchConfigOf inp targets] }
        if env.launchOk = false then (.fail, t3)
        else
          let t4 := { t3 with syncs := 1 }
          if env.syncOk = false then (.fail, t4)
          else
            let D := downloadLoop env.d2hOk inp.values targets inp.entries 0 0
            let t5 := { t4 with downloads := D.2 }
            if D.1 = .fail then (.fail, t5)
            else (.ok, { t5 with releaseCount := 1 })

/-- Environment of `CUDAComputeUtil::execute`: the device-context
environment, whether `findKernelDescIndex(StageType::Compute)` finds a
kernel, success of `cuModuleLoadData`, the `_compute` environment, and
success of `cuModuleUnload`. -/
structure ExecEnv where
  device : DeviceEnv
  hasComputeKernel : Bool
  moduleLoadOk : Bool
  compute : ComputeEnv
  moduleUnloadOk : Bool

/-- Trace of an `execute` run that never reached `_compute`: nothing
observable happened yet. -/
def emptyTrace : Trace :=
  { entryAsserts := 0, texAsserts := 0, mallocs := [], uploads := [],
    launches := [], syncs := 0, downloads := [], releaseCount := 0 }

/-- Embedding of `CUDAComputeUtil::execute`: context init, kernel-desc
lookup, module load, `_compute`, module unload. -/
def execRun (inp : ComputeInput) (env : ExecEnv) : SRes × Trace :=
  if scopeContextInit env.device = .fail then (.fail, emptyTrace)
  else if env.hasComputeKernel = false then (.fail, emptyTrace)
  else if env.moduleLoadOk = false then (.fail, emptyTrace)
  else
    let C := computeRun inp env.compute
    if C.1 = .fail then (.fail, C.2)
    else if env.moduleUnloadOk = false then (.fail, C.2)
    else (.ok, C.2)

/-- A non-prohibited device whose score is 0 (its multiprocessor count and
clock rate are 0), used to exhibit the zero-score behaviour of device
selection. -/
def zeroScoreDevice : CUDADevice :=
  { prohibited := false, major := 3, minor := 0, multiProcessorCount := 0, clockRate := 0 }

/-- Environment in which every `_compute` driver call succeeds. -/
def allOkComputeEnv : ComputeEnv :=
  { kernelFound := true, addBindSetValuesOk := true, mallocOk := fun _ => true,
    h2dOk := fun _ => true, funcAttr1Ok := true, funcAttr2Ok := true,
    launchOk := true, syncOk := true, d2hOk := fun _ => true }

/-- Device environment with one healthy scoring device. -/
def allOkDeviceEnv : DeviceEnv :=
  { cuInitOk := true, getDeviceCountOk := true,
    devices := [⟨false, 7, 0, 16, 1000⟩], setDeviceOk := true, ctxCreateOk := true }

/-- Environment in which every `execute` driver call succeeds. -/
def allOkExecEnv : ExecEnv :=
  { device := allOkDeviceEnv, hasComputeKernel := true, moduleLoadOk := true,
    compute := allOkComputeEnv, moduleUnloadOk := true }

/-- Input with a single 16-byte constant-buffer value (the root parameter
block) carrying host data, no test-layout entries, thread-group size
(8, 1, 1) and a reflection reporting exactly one entry point. -/
def cbInput : ComputeInput :=
  { entryPointCount := 1, tgsX := 8, tgsY := 1, tgsZ := 1,
    values := [⟨some TypeKind.constantBuffer, 16, true, 0⟩],
    entries := [], rootValueIdx := some 0, entryPointValueIdx := none }

/-- Input identical to `cbInput` except that reflection reports two entry
points. -/
def twoEntryPointInput : ComputeInput :=
  { entryPointCount := 2, tgsX := 8, tgsY := 1, tgsZ := 1,
    values := [⟨some TypeKind.constantBuffer, 16, true, 0⟩],
    entries := [], rootValueIdx := some 0, entryPointValueIdx := none }

/-- Input whose single test-layout entry is output-flagged and whose value
is a 1D-texture resource of 32 bytes with host data: the allocation pass
gives it no device allocation, so the download loop skips it. -/
def tex1DOutputInput : ComputeInput :=
  { entryPointCount := 1, tgsX := 8, tgsY := 1, tgsZ := 1,
    values := [⟨some (TypeKind.resource BaseShape.texture1D), 32, true, 0⟩],
    entries := [⟨true, some 0⟩],
    rootValueIdx := none, entryPointValueIdx := none }

/-- All-success `execute` environment except that `cuModuleUnload`
fails. -/
def unloadFailExecEnv : ExecEnv :=
  { allOkExecEnv with moduleUnloadOk := false }

/-- All-success `execute` environment except that `cuModuleGetFunction`
fails to find the kernel. -/
def noKernelExecEnv : ExecEnv :=
  { allOkExecEnv with compute := { allOkComputeEnv with kernelFound := false } }

/-! Characterisation lemmas for `_findMaxFlopsDeviceId`. -/

theorem maxEligScore_cons (d : CUDADevice) (rest : List CUDADevice) :
    maxEligScore (d :: rest) =
      if d.prohibited then maxEligScore rest
      else max (deviceScore d) (maxEligScore rest) := by
  simp [maxEligScore]

theorem findLoop_eq (ds : List CUDADevice) : ∀ (i maxPerf : Nat) (best : Option Nat),
    findLoop ds i maxPerf best =
      if maxEligScore ds ≤ maxPerf then best
      else Option.map (fun j => i + j) (firstIdxWithScore (maxEligScore ds) ds) := by
  induction ds with
  | nil =>
    intro i maxPerf best
    simp [findLoop, maxEligScore]
  | cons d rest ih =>
    intro i maxPerf best
    rw [maxEligScore_cons]
    by_cases hp : d.prohibited
    · rw [show findLoop (d :: rest) i maxPerf best = findLoop rest (i + 1) maxPerf best by
        simp [findLoop, hp]]
      rw [ih, if_pos hp]
      by_cases hle : maxEligScore rest ≤ maxPerf
      · simp [hle]
      · rw [if_neg hle, if_neg hle]
        rw [show firstIdxWithScore (maxEligScore rest) (d :: rest) =
            (firstIdxWithScore (maxEligScore rest) rest).map (· + 1) by
          simp [firstIdxWithScore, hp]]
        cases firstIdxWithScore (maxEligScore rest) rest with
        | none => simp
        | some j => simp; omega
    · rw [if_neg hp]
      by_cases hgt : deviceScore d > maxPerf
      · rw [show findLoop (d :: rest) i maxPerf best =
            findLoop rest (i + 1) (deviceScore d) (some i) by simp [findLoop, hp, hgt]]
        rw [ih]
        have hmax : ¬ (max (deviceScore d) (maxEligScore rest) ≤ maxPerf) := by
          omega
        rw [if_neg hmax]
        by_cases hle : maxEligScore rest ≤ deviceScore d
        · have hm : max (deviceScore d) (maxEligScore rest) = deviceScore d := by omega
          rw [if_pos hle, hm]
          rw [show firstIdxWithScore (deviceScore d) (d :: rest) = some 0 by
            simp [firstIdxWithScore, hp]]
          simp
        · have hm : max (deviceScore d) (maxEligScore rest) = maxEligScore rest := by omega
          rw [if_neg hle, hm]
          rw [show firstIdxWithScore (maxEligScore rest) (d :: rest) =
              (firstIdxWithScore (maxEligScore rest) rest).map (· + 1) by
            have : ¬ (d.prohibited = false ∧ deviceScore d = maxEligScore rest) := by
              intro hc
              omega
            simp [firstIdxWithScore, this]]
          cases firstIdxWithScore (maxEligScore rest) rest with
          | none => simp
          | some j => simp; omega
      · rw [show findLoop (d :: rest) i maxPerf best = findLoop rest (i + 1) maxPerf best by
          simp [findLoop, hp, hgt]]
        rw [ih]
        by_cases hle : maxEligScore rest ≤ maxPerf
        · have hm : max (deviceScore d) (maxEligScore rest) ≤ maxPerf := by omega
          rw [if_pos hle, if_pos hm]
        · have hm : ¬ (max (deviceScore d) (maxEligScore rest) ≤ maxPerf) := by omega
          have hm2 : max (deviceScore d) (maxEligScore rest) = maxEligScore rest := by omega
          rw [if_neg hle, if_neg hm, hm2]
          rw [show firstIdxWithScore (maxEligScore rest) (d :: rest) =
              (firstIdxWithScore (maxEligScore rest) rest).map (· + 1) by
            have : ¬ (d.prohibited = false ∧ deviceScore d = maxEligScore rest) := by
              intro hc
              omega
            simp [firstIdxWithScore, this]]
          cases firstIdxWithScore (maxEligScore rest) rest with
          | none => simp
          | some j => simp; omega

/-- Non-claim helper: closed-form characterisation of
`_findMaxFlopsDeviceId`. -/
theorem findMaxChar (ds : List CUDADevice) :
    _findMaxFlopsDeviceId ds =
      if maxEligScore ds = 0 then none
      else firstIdxWithScore (maxEligScore ds) ds := by
  rw [_findMaxFlopsDeviceId, findLoop_eq]
  by_cases h : maxEligScore ds = 0
  · simp [h]
  · have hle : ¬ (maxEligScore ds ≤ 0) := by omega
    rw [if_neg hle, if_neg h]
    cases firstIdxWithScore (maxEligScore ds) ds <;> simp

theorem firstIdxWithScore_some (m : Nat) (ds : List CUDADevice) :
    ∀ i, firstIdxWithScore m ds = some i →
      ∃ d, ds[i]? = some d ∧ d.prohibited = false ∧ deviceScore d = m := by
  induction ds with
  | nil => intro i h; simp [firstIdxWithScore] at h
  | cons d rest ih =>
    intro i h
    rw [firstIdxWithScore] at h
    by_cases hd : d.prohibited = false ∧ deviceScore d = m
    · rw [if_pos hd] at h
      cases h
      exact ⟨d, by simp, hd.1, hd.2⟩
    · rw [if_neg hd] at h
      rcases Option.map_eq_some'.mp h with ⟨j, hj, hij⟩
      rcases ih j hj with ⟨d', hd', hpr, hsc⟩
      exact ⟨d', by rw [← hij]; simpa using hd', hpr, hsc⟩

theorem maxEligScore_zero_of_all_zero (ds : List CUDADevice)
    (h : ∀ d ∈ ds, d.prohibited = false → deviceScore d = 0) :
    maxEligScore ds = 0 := by
  induction ds with
  | nil => simp [maxEligScore]
  | cons d rest ih =>
    rw [maxEligScore_cons]
    have hrest : maxEligScore rest = 0 := by
      apply ih
      intro d' hd' hp
      exact h d' (by simp [hd']) hp
    by_cases hp : d.prohibited
    · rw [if_pos hp, hrest]
    · rw [if_neg hp, hrest]
      have : deviceScore d = 0 := h d (by simp) (by simpa using hp)
      omega

theorem findMax_none_of_all_zero (ds : List CUDADevice)
    (h : ∀ d ∈ ds, d.prohibited = false → deviceScore d = 0) :
    _findMaxFlopsDeviceId ds = none := by
  rw [findMaxChar, if_pos (maxEligScore_zero_of_all_zero ds h)]

/-- C4 (counterexample): a single non-prohibited device whose score is 0
is the arg-max of the (one-element) eligible set, yet device selection
returns failure instead of that device, refuting the claim as stated. -/
theorem c4_argmax_counterexample :
    zeroScoreDevice.prohibited = false ∧
    _findMaxFlopsDeviceId [zeroScoreDevice] = none ∧
    _findMaxFlopsDeviceId [zeroScoreDevice] ≠ some 0 := by
  refine ⟨rfl, by decide, by decide⟩

/-- C4 (amended): device selection is the deterministic arg-max by score
`multiprocessorCount * coresPerSM * clockRate` over non-prohibited
devices, ties resolving to the first in enumeration order, PROVIDED the
maximal score is positive; when the maximal eligible score is 0 (in
particular when no eligible device exists) selection fails.  Determinism
is immediate: the result is a function of the device list alone. -/
theorem c4_device_selection_argmax (ds : List CUDADevice) :
    _findMaxFlopsDeviceId ds =
      if maxEligScore ds = 0 then none
      else firstIdxWithScore (maxEligScore ds) ds :=
  findMaxChar ds

/-- C10: a device of score 0 is never the selected device — any selected
device has positive score — and when every non-prohibited device has
score 0 the selection fails even though eligible devices may exist. -/
theorem c10_zero_score_never_selected (ds : List CUDADevice) :
    (∀ i, _findMaxFlopsDeviceId ds = some i →
      ∃ d, ds[i]? = some d ∧ d.prohibited = false ∧ 0 < deviceScore d) ∧
    ((∀ d ∈ ds, d.prohibited = false → deviceScore d = 0) →
      _findMaxFlopsDeviceId ds = none) := by
  constructor
  · intro i h
    rw [findMaxChar] at h
    by_cases hz : maxEligScore ds = 0
    · rw [if_pos hz] at h
      cases h
    · rw [if_neg hz] at h
      rcases firstIdxWithScore_some (maxEligScore ds) ds i h with ⟨d, hd, hpr, hsc⟩
      exact ⟨d, hd, hpr, by omega⟩
  · exact findMax_none_of_all_zero ds

/-- C10 witness: a concrete eligible device with clock rate 0 (score 0)
makes selection fail. -/
theorem c10_witness :
    _findMaxFlopsDeviceId [⟨false, 5, 0, 4, 0⟩] = none :=
  (c10_zero_score_never_selected [⟨false, 5, 0, 4, 0⟩]).2 (by decide)

/-- C5: a capability pair absent from the cores-per-SM table maps to the
core count of the table's last entry.  The function is total — the miss
branch returns a value (the source's `SLANG_ASSERT(sm > last.coreCount)`
there is a debug-only signal, not a failure return). -/
theorem c5_unknown_capability_defaults_to_last (major minor : Int)
    (h : ∀ p ∈ smInfos, p.1 ≠ major * 16 + minor) :
    _calcSMCountPerMultiProcessor major minor = (smInfos.getLastD (0, 0)).2 := by
  have hfind : smInfos.find? (fun p => p.1 == major * 16 + minor) = none := by
    rw [List.find?_eq_none]
    intro p hp
    simpa using h p hp
  simp only [_calcSMCountPerMultiProcessor]
  rw [hfind]

/-- C5 witness: capability (8, 6) is not in the table and yields the last
entry's core count. -/
theorem c5_witness :
    _calcSMCountPerMultiProcessor 8 6 = (smInfos.getLastD (0, 0)).2 :=
  c5_unknown_capability_defaults_to_last 8 6 (by decide)

/-- C8: with zero eligible devices (no devices at all, or every device in
the prohibited compute mode) `canCreateDevice` returns `false`; being a
total function of its environment, the model cannot throw or crash. -/
theorem c8_no_eligible_device_false (env : DeviceEnv)
    (h : env.devices.filter (fun d => d.prohibited = false) = []) :
    canCreateDevice env = false := by
  have hall : ∀ d ∈ env.devices, d.prohibited = false → deviceScore d = 0 := by
    intro d hd hpr
    have hmem : d ∈ env.devices.filter (fun d => d.prohibited = false) := by
      rw [List.mem_filter]
      exact ⟨hd, by simp [hpr]⟩
    rw [h] at hmem
    cases hmem
  have hnone : (if env.getDeviceCountOk then _findMaxFlopsDeviceId env.devices else none) = none := by
    rw [findMax_none_of_all_zero env.devices hall]
    split <;> rfl
  have hfail : scopeContextInit env = .fail := by
    rw [scopeContextInit, hnone]
    split <;> rfl
  rw [canCreateDevice, hfail]

/-- C8 witness: an environment with an empty device list probes to
`false`. -/
theorem c8_witness :
    canCreateDevice { cuInitOk := true, getDeviceCountOk := true, devices := [],
                      setDeviceOk := true, ctxCreateOk := true } = false :=
  c8_no_eligible_device_false _ rfl

/-! Lemmas about the resource-allocation loop. -/

theorem allocLoop_target (ok : Nat → Bool) (vs : List Value) :
    ∀ (n i : Nat) (v : Value) (sz : Nat),
      (allocLoop ok vs n).1 = .ok →
      vs[i]? = some v →
      allocSize v = some sz →
      ∃ p, (allocLoop ok vs n).2.2.2[i]? = some (some (p, sz)) := by
  induction vs with
  | nil =>
    intro n i v sz _ hv _
    simp at hv
  | cons w rest ih =>
    intro n i v sz hok hv hsz
    cases hA : allocSize w with
    | none =>
      simp only [allocLoop, hA] at hok ⊢
      cases i with
      | zero =>
        simp at hv
        rw [hv] at hA
        rw [hA] at hsz
        cases hsz
      | succ i =>
        simp only [List.getElem?_cons_succ] at hv ⊢
        exact ih n i v sz hok hv hsz
    | some sz0 =>
      simp only [allocLoop, hA] at hok ⊢
      by_cases hOk : ok n
      · simp only [hOk, if_true] at hok ⊢
        cases i with
        | zero =>
          simp at hv
          rw [hv] at hA
          rw [hA] at hsz
          injection hsz with hsz
          exact ⟨n + 1, by simp [hsz]⟩
        | succ i =>
          simp only [List.getElem?_cons_succ] at hv ⊢
          exact ih (n + 1) i v sz hok hv hsz
      · simp [hOk] at hok

/-- C6: on a successful run of the resource-allocation pass, every value
whose kind is ConstantBuffer, ParameterBlock, or a
ByteAddressBuffer/StructuredBuffer resource shape ends up with exactly
one attached device resource (`m_target`) whose allocation size is
exactly the value's `m_sizeInBytes`. -/
theorem c6_alloc_size_exact (ok : Nat → Bool) (vs : List Value) (i : Nat) (v : Value)
    (hok : (allocLoop ok vs 0).1 = .ok)
    (hv : vs[i]? = some v)
    (hkind : valueKind v = .constantBuffer ∨ valueKind v = .parameterBlock ∨
      valueKind v = .resource .byteAddressBuffer ∨
      valueKind v = .resource .structuredBuffer) :
    ∃ p, (allocLoop ok vs 0).2.2.2[i]? = some (some (p, v.sizeInBytes)) := by
  apply allocLoop_target ok vs 0 i v v.sizeInBytes hok hv
  rcases hkind with h | h | h | h <;> simp [allocSize, h]

/-- C6 witness: a 16-byte constant-buffer value gets a 16-byte device
allocation attached. -/
theorem c6_witness :
    ∃ p, (allocLoop (fun _ => true) [⟨some TypeKind.constantBuffer, 16, true, 0⟩] 0).2.2.2[0]? =
      some (some (p, (⟨some TypeKind.constantBuffer, 16, true, 0⟩ : Value).sizeInBytes)) :=
  c6_alloc_size_exact (fun _ => true) [⟨some TypeKind.constantBuffer, 16, true, 0⟩] 0
    ⟨some TypeKind.constantBuffer, 16, true, 0⟩ (by decide) (by decide) (Or.inl (by decide))

/-- C9: a value whose type layout is null is dispatched as a
ConstantBuffer, so on a successful allocation pass it gets a device
allocation of exactly its byte size attached, rather than no
allocation. -/
theorem c9_null_layout_treated_as_constant_buffer (ok : Nat → Bool) (vs : List Value)
    (i : Nat) (v : Value)
    (hok : (allocLoop ok vs 0).1 = .ok)
    (hv : vs[i]? = some v)
    (htype : v.type = none) :
    valueKind v = .constantBuffer ∧
    ∃ p, (allocLoop ok vs 0).2.2.2[i]? = some (some (p, v.sizeInBytes)) := by
  have hk : valueKind v = .constantBuffer := by
    rw [valueKind, htype]
    rfl
  exact ⟨hk, allocLoop_target ok vs 0 i v v.sizeInBytes hok hv (by simp [allocSize, hk])⟩

/-- C9 witness: a 32-byte value with a null type layout gets a 32-byte
device allocation attached. -/
theorem c9_witness :
    valueKind ⟨none, 32, true, 0⟩ = .constantBuffer ∧
    ∃ p, (allocLoop (fun _ => true) [⟨none, 32, true, 0⟩] 0).2.2.2[0]? =
      some (some (p, (⟨none, 32, true, 0⟩ : Value).sizeInBytes)) :=
  c9_null_layout_treated_as_constant_buffer (fun _ => true) [⟨none, 32, true, 0⟩] 0
    ⟨none, 32, true, 0⟩ (by decide) (by decide) rfl

/-! Lemmas about the device-to-host copy-back loop. -/

theorem downloadLoop_mem (ok : Nat → Bool) (values : List Value)
    (targets : List (Option (Nat × Nat))) (entries : List Entry) :
    ∀ (i0 n j : Nat) (e : Entry) (v : Value),
      (downloadLoop ok values targets entries i0 n).1 = .ok →
      entries[j]? = some e →
      e.isOutput = true →
      valueAt values e.valueIdx = some v →
      v.hasData = true →
      (targetAt targets e.valueIdx).isSome = true →
      (i0 + j, v.sizeInBytes) ∈ (downloadLoop ok values targets entries i0 n).2 := by
  induction entries with
  | nil =>
    intro i0 n j e v _ hj
    simp at hj
  | cons e0 rest ih =>
    intro i0 n j e v hok hj hout hval hdata htg
    cases j with
    | zero =>
      simp at hj
      subst hj
      by_cases hOk : ok n
      · simp [downloadLoop, hout, hval, hdata, htg, hOk]
      · simp [downloadLoop, hout, hval, hdata, htg, hOk] at hok
    | succ j =>
      simp only [List.getElem?_cons_succ] at hj
      by_cases ho : e0.isOutput = true
      · cases hv0 : valueAt values e0.valueIdx with
        | some v0 =>
          by_cases hcond : (v0.hasData && (targetAt targets e0.valueIdx).isSome) = true
          · by_cases hOk : ok n
            · simp only [downloadLoop, ho, if_true, hv0, hcond, hOk] at hok ⊢
              have hmem := ih (i0 + 1) (n + 1) j e v hok hj hout hval hdata htg
              have harith : i0 + (j + 1) = (i0 + 1) + j := by omega
              rw [harith]
              exact List.mem_cons_of_mem _ hmem
            · simp [downloadLoop, ho, hv0, hcond, hOk] at hok
          · simp only [Bool.not_eq_true] at hcond
            simp only [downloadLoop, ho, if_true, hv0, hcond, Bool.false_eq_true,
              if_false] at hok ⊢
            have hmem := ih (i0 + 1) n j e v hok hj hout hval hdata htg
            have harith : i0 + (j + 1) = (i0 + 1) + j := by omega
            rw [harith]
            exact hmem
        | none =>
          simp only [downloadLoop, ho, if_true, hv0] at hok ⊢
          have hmem := ih (i0 + 1) n j e v hok hj hout hval hdata htg
          have harith : i0 + (j + 1) = (i0 + 1) + j := by omega
          rw [harith]
          exact hmem
      · simp only [Bool.not_eq_true] at ho
        simp only [downloadLoop, ho, Bool.false_eq_true, if_false] at hok ⊢
        have hmem := ih (i0 + 1) n j e v hok hj hout hval hdata htg
        have harith : i0 + (j + 1) = (i0 + 1) + j := by omega
        rw [harith]
        exact hmem

/-- C3 (counterexample): an output-flagged entry whose value got no
device allocation (here a 1D-texture resource) is skipped by the copy-back
loop: the run succeeds, yet zero device-to-host copies happen for the one
output entry, refuting "no entry skipped" as stated. -/
theorem c3_output_entry_skipped_counterexample :
    (computeRun tex1DOutputInput allOkComputeEnv).1 = SRes.ok ∧
    tex1DOutputInput.entries[0]? = some ⟨true, some 0⟩ ∧
    (valueAt tex1DOutputInput.values (some 0)).map Value.sizeInBytes = some 32 ∧
    (computeRun tex1DOutputInput allOkComputeEnv).2.downloads = [] := by
  refine ⟨by decide, by decide, by decide, by decide⟩

/-- C3 (amended): after synchronization, for every output-flagged
test-layout entry whose value exists, has a host buffer, and has a device
allocation, exactly that value's `m_sizeInBytes` bytes are copied
device-to-host for that entry (no partial copy); output entries whose
value is missing, has no host data, or got no device allocation are
skipped entirely. -/
theorem c3_output_copy_exact (ok : Nat → Bool) (values : List Value)
    (targets : List (Option (Nat × Nat))) (entries : List Entry)
    (j : Nat) (e : Entry) (v : Value)
    (hok : (downloadLoop ok values targets entries 0 0).1 = .ok)
    (hj : entries[j]? = some e)
    (hout : e.isOutput = true)
    (hval : valueAt values e.valueIdx = some v)
    (hdata : v.hasData = true)
    (htg : (targetAt targets e.valueIdx).isSome = true) :
    (j, v.sizeInBytes) ∈ (downloadLoop ok values targets entries 0 0).2 := by
  have := downloadLoop_mem ok values targets entries 0 0 j e v hok hj hout hval hdata htg
  simpa using this

/-- C3 witness: a single output entry whose 16-byte value has host data
and a device allocation gets exactly one 16-byte copy-back recorded. -/
theorem c3_witness :
    ((0 : Nat), (16 : Nat)) ∈
      (downloadLoop (fun _ => true) [⟨some TypeKind.constantBuffer, 16, true, 0⟩]
        [some (1, 16)] [⟨true, some 0⟩] 0 0).2 :=
  c3_output_copy_exact (fun _ => true) [⟨some TypeKind.constantBuffer, 16, true, 0⟩]
    [some (1, 16)] [⟨true, some 0⟩] 0 ⟨true, some 0⟩
    ⟨some TypeKind.constantBuffer, 16, true, 0⟩
    (by decide) (by decide) rfl (by decide) rfl (by decide)

/-! Lemmas about the pipeline as a whole. -/

theorem computeRun_char (inp : ComputeInput) (env : ComputeEnv) :
    ((computeRun inp env).2.releaseCount =
      if (computeRun inp env).1 = SRes.ok then 1 else 0) ∧
    ((computeRun inp env).2.launches = [] ∨
      (computeRun inp env).2.launches =
        [launchConfigOf inp (allocLoop env.mallocOk inp.values 0).2.2.2]) ∧
    (env.launchOk = false → (computeRun inp env).1 = SRes.fail ∧
      (computeRun inp env).2.downloads = [] ∧ (computeRun inp env).2.syncs = 0) ∧
    (env.kernelFound = false → (computeRun inp env).1 = SRes.fail ∧
      (computeRun inp env).2.mallocs = [] ∧ (computeRun inp env).2.launches = []) := by
  cases hk : env.kernelFound with
  | false => simp [computeRun, hk]
  | true =>
    cases hb : env.addBindSetValuesOk with
    | false => simp [computeRun, hk, hb]
    | true =>
      cases hA : (allocLoop env.mallocOk inp.values 0).1 with
      | fail => simp [computeRun, hk, hb, hA]
      | ok =>
        cases hU : (uploadLoop env.h2dOk (inp.values.zip (allocLoop env.mallocOk inp.values 0).2.2.2) 0 0).1 with
        | fail => simp [computeRun, hk, hb, hA, hU]
        | ok =>
          cases h1 : env.funcAttr1Ok with
          | false => simp [computeRun, hk, hb, hA, hU, h1]
          | true =>
            cases h2 : env.funcAttr2Ok with
            | false => simp [computeRun, hk, hb, hA, hU, h1, h2]
            | true =>
              cases hL : env.launchOk with
              | false => simp [computeRun, hk, hb, hA, hU, h1, h2, hL]
              | true =>
                cases hS : env.syncOk with
                | false => simp [computeRun, hk, hb, hA, hU, h1, h2, hL, hS]
                | true =>
                  cases hD : (downloadLoop env.d2hOk inp.values (allocLoop env.mallocOk inp.values 0).2.2.2 inp.entries 0 0).1 with
                  | fail => simp [computeRun, hk, hb, hA, hU, h1, h2, hL, hS, hD]
                  | ok => simp [computeRun, hk, hb, hA, hU, h1, h2, hL, hS, hD]

theorem computeRun_release (inp : ComputeInput) (env : ComputeEnv) :
    (computeRun inp env).2.releaseCount =
      if (computeRun inp env).1 = SRes.ok then 1 else 0 :=
  (computeRun_char inp env).1

theorem computeRun_launches (inp : ComputeInput) (env : ComputeEnv) :
    (computeRun inp env).2.launches = [] ∨
    (computeRun inp env).2.launches =
      [launchConfigOf inp (allocLoop env.mallocOk inp.values 0).2.2.2] :=
  (computeRun_char inp env).2.1

/-- C7: every kernel launch the pipeline issues (including one whose
`cuLaunchKernel` call reports failure) uses grid dimensions (1, 1, 1),
block dimensions equal to the entry point's three thread-group-size
integers, shared-memory size 0, the null stream, and an argument list of
exactly the two device pointers (entry-point parameter block pointer,
global/root parameter block pointer), in that order. -/
theorem c7_launch_convention (inp : ComputeInput) (env : ComputeEnv) (cfg : LaunchConfig)
    (h : cfg ∈ (computeRun inp env).2.launches) :
    cfg.gridX = 1 ∧ cfg.gridY = 1 ∧ cfg.gridZ = 1 ∧
    cfg.blockX = inp.tgsX ∧ cfg.blockY = inp.tgsY ∧ cfg.blockZ = inp.tgsZ ∧
    cfg.sharedBytes = 0 ∧ cfg.stream = none ∧
    cfg.args = [getCUDAData (allocLoop env.mallocOk inp.values 0).2.2.2 inp.entryPointValueIdx,
                getCUDAData (allocLoop env.mallocOk inp.values 0).2.2.2 inp.rootValueIdx] := by
  rcases computeRun_launches inp env with hl | hl <;> rw [hl] at h
  · cases h
  · have hcfg := List.mem_singleton.mp h
    subst hcfg
    exact ⟨rfl, rfl, rfl, rfl, rfl, rfl, rfl, rfl, rfl⟩

/-- C7 witness: the all-success run on `cbInput` launches exactly once
with the fixed convention. -/
theorem c7_witness :
    (launchConfigOf cbInput (allocLoop allOkComputeEnv.mallocOk cbInput.values 0).2.2.2).gridX = 1 ∧
    (launchConfigOf cbInput (allocLoop allOkComputeEnv.mallocOk cbInput.values 0).2.2.2).gridY = 1 ∧
    (launchConfigOf cbInput (allocLoop allOkComputeEnv.mallocOk cbInput.values 0).2.2.2).gridZ = 1 ∧
    (launchConfigOf cbInput (allocLoop allOkComputeEnv.mallocOk cbInput.values 0).2.2.2).blockX = cbInput.tgsX ∧
    (launchConfigOf cbInput (allocLoop allOkComputeEnv.mallocOk cbInput.values 0).2.2.2).blockY = cbInput.tgsY ∧
    (launchConfigOf cbInput (allocLoop allOkComputeEnv.mallocOk cbInput.values 0).2.2.2).blockZ = cbInput.tgsZ ∧
    (launchConfigOf cbInput (allocLoop allOkComputeEnv.mallocOk cbInput.values 0).2.2.2).sharedBytes = 0 ∧
    (launchConfigOf cbInput (allocLoop allOkComputeEnv.mallocOk cbInput.values 0).2.2.2).stream = none ∧
    (launchConfigOf cbInput (allocLoop allOkComputeEnv.mallocOk cbInput.values 0).2.2.2).args =
      [getCUDAData (allocLoop allOkComputeEnv.mallocOk cbInput.values 0).2.2.2 cbInput.entryPointValueIdx,
       getCUDAData (allocLoop allOkComputeEnv.mallocOk cbInput.values 0).2.2.2 cbInput.rootValueIdx] :=
  c7_launch_convention cbInput allOkComputeEnv
    (launchConfigOf cbInput (allocLoop allOkComputeEnv.mallocOk cbInput.values 0).2.2.2)
    (by decide)

/-- C1 (code evaluation at the failing input): with a reflection
reporting two entry points and every driver call succeeding, `execute`
returns success, performs a device allocation, and only the debug-only
`SLANG_ASSERT(entryPointCount == 1)` records the violation — it does not
return a failure status before allocation as the claim (and the spec's
stated intent) requires. -/
theorem c1_entry_point_count_not_enforced :
    (execRun twoEntryPointInput allOkExecEnv).1 = SRes.ok ∧
    (execRun twoEntryPointInput allOkExecEnv).2.mallocs = [16] ∧
    (execRun twoEntryPointInput allOkExecEnv).2.entryAsserts = 1 := by
  refine ⟨by decide, by decide, by decide⟩

/-- C2 (counterexample): when everything succeeds except the final
`cuModuleUnload`, a pipeline stage fails after a device allocation was
made, `execute` returns failure — yet `releaseValueTargets` already ran,
refuting "without releasing the device resources" and "release runs only
on the fully successful path" as stated. -/
theorem c2_unload_failure_after_release_counterexample :
    (execRun cbInput unloadFailExecEnv).1 = SRes.fail ∧
    (execRun cbInput unloadFailExecEnv).2.mallocs = [16] ∧
    (execRun cbInput unloadFailExecEnv).2.releaseCount = 1 := by
  refine ⟨by decide, by decide, by decide⟩

theorem execRun_release (inp : ComputeInput) (env : ExecEnv) :
    ((execRun inp env).1 = SRes.ok → (execRun inp env).2.releaseCount = 1) ∧
    ((execRun inp env).1 = SRes.fail →
      (execRun inp env).2.releaseCount = 0 ∨ env.moduleUnloadOk = false) := by
  have hr := computeRun_release inp env.compute
  by_cases hctx : scopeContextInit env.device = SRes.fail
  · simp [execRun, hctx, emptyTrace]
  · cases hkd : env.hasComputeKernel with
    | false => simp [execRun, hctx, hkd, emptyTrace]
    | true =>
      cases hml : env.moduleLoadOk with
      | false => simp [execRun, hctx, hkd, hml, emptyTrace]
      | true =>
        cases hcf : (computeRun inp env.compute).1 with
        | fail => simp [execRun, hctx, hkd, hml, hcf, hr]
        | ok =>
          cases hmu : env.moduleUnloadOk with
          | false => simp [execRun, hctx, hkd, hml, hcf, hmu]
          | true => simp [execRun, hctx, hkd, hml, hcf, hmu, hr]

/-- C2 (amended): any failure at a pipeline stage before the resource
release returns immediately without executing later stages and without
releasing the already-made device allocations; `releaseValueTargets` runs
exactly once, and only when the whole `_compute` pipeline succeeds.  The
one failure point after the release is `cuModuleUnload`: a failing
`execute` either released nothing or failed at that unload. -/
theorem c2_failure_skips_release (inp : ComputeInput) (env : ExecEnv) :
    ((computeRun inp env.compute).1 = SRes.fail →
      (computeRun inp env.compute).2.releaseCount = 0) ∧
    ((computeRun inp env.compute).1 = SRes.ok →
      (computeRun inp env.compute).2.releaseCount = 1) ∧
    ((execRun inp env).1 = SRes.ok → (execRun inp env).2.releaseCount = 1) ∧
    ((execRun inp env).1 = SRes.fail →
      (execRun inp env).2.releaseCount = 0 ∨ env.moduleUnloadOk = false) ∧
    (env.compute.launchOk = false →
      (computeRun inp env.compute).2.downloads = [] ∧
      (computeRun inp env.compute).2.syncs = 0 ∧
      (computeRun inp env.compute).2.releaseCount = 0) ∧
    (env.compute.kernelFound = false →
      (computeRun inp env.compute).2.mallocs = [] ∧
      (computeRun inp env.compute).2.launches = [] ∧
      (computeRun inp env.compute).2.releaseCount = 0) := by
  have hrel := computeRun_release inp env.compute
  refine ⟨?_, ?_, ?_, ?_, ?_, ?_⟩
  · intro h
    rw [hrel, h]
    simp
  · intro h
    rw [hrel, h]
    simp
  · exact (execRun_release inp env).1
  · exact (execRun_release inp env).2
  · intro h
    have hc := ((computeRun_char inp env.compute).2.2.1 h)
    have hr := computeRun_release inp env.compute
    rw [hr, hc.1]
    exact ⟨hc.2.1, hc.2.2, by simp⟩
  · intro h
    have hc := ((computeRun_char inp env.compute).2.2.2 h)
    have hr := computeRun_release inp env.compute
    rw [hr, hc.1]
    exact ⟨hc.2.1, hc.2.2, by simp⟩

/-- C2 witness: with `cuModuleGetFunction` failing, nothing was
allocated, launched, or released. -/
theorem c2_witness :
    (computeRun cbInput noKernelExecEnv.compute).2.mallocs = [] ∧
    (computeRun cbInput noKernelExecEnv.compute).2.launches = [] ∧
    (computeRun cbInput noKernelExecEnv.compute).2.releaseCount = 0 :=
  (c2_failure_skips_release cbInput noKernelExecEnv).2.2.2.2.2 rfl

end RenderTest
